import Mathlib

/-!
Verification of the Argon2-Secure-KDF repository (`src/argon2_secure_kdf.py`)
against its natural-language specification.

Bytes are modelled as `List Nat` (each element a byte value `< 256`).
The SHA-256 hash and the HMAC construction used by `randomize_salt`
(via Python's `hashlib.sha256` and `hmac.new`) are embedded as executable
functions following the FIPS 180-4 / RFC 2104 algorithms those library
calls implement.  The external memory-hard primitive
`argon2.low_level.hash_secret_raw` is not part of this repository's
sources; its pure mixing function is taken as an explicit function
parameter, and its parameter validation is modelled from the spec.
-/

namespace KDF

/-- The modulus `2 ^ 32` for 32-bit word arithmetic in SHA-256. -/
def M32 : Nat := 4294967296

/-- Right rotation of a 32-bit word by `n` positions. -/
def rotr32 (n x : Nat) : Nat :=
  ((x >>> n) ||| (x <<< (32 - n))) % M32

/-- SHA-256 `Ch` function: `(e ∧ f) ⊕ (¬e ∧ g)` on 32-bit words. -/
def ch32 (e f g : Nat) : Nat :=
  (e &&& f) ^^^ ((e ^^^ 4294967295) &&& g)

/-- SHA-256 `Maj` function. -/
def maj32 (a b c : Nat) : Nat :=
  (a &&& b) ^^^ (a &&& c) ^^^ (b &&& c)

/-- SHA-256 big sigma 0. -/
def bsig0 (x : Nat) : Nat := rotr32 2 x ^^^ rotr32 13 x ^^^ rotr32 22 x

/-- SHA-256 big sigma 1. -/
def bsig1 (x : Nat) : Nat := rotr32 6 x ^^^ rotr32 11 x ^^^ rotr32 25 x

/-- SHA-256 small sigma 0. -/
def ssig0 (x : Nat) : Nat := rotr32 7 x ^^^ rotr32 18 x ^^^ (x >>> 3)

/-- SHA-256 small sigma 1. -/
def ssig1 (x : Nat) : Nat := rotr32 17 x ^^^ rotr32 19 x ^^^ (x >>> 10)

/-- The 64 SHA-256 round constants (FIPS 180-4 §4.2.2). -/
def K256 : List Nat :=
  [1116352408, 1899447441, 3049323471, 3921009573, 961987163, 1508970993,
   2453635748, 2870763221, 3624381080, 310598401, 607225278, 1426881987,
   1925078388, 2162078206, 2614888103, 3248222580, 3835390401, 4022224774,
   264347078, 604807628, 770255983, 1249150122, 1555081692, 1996064986,
   2554220882, 2821834349, 2952996808, 3210313671, 3336571891, 3584528711,
   113926993, 338241895, 666307205, 773529912, 1294757372, 1396182291,
   1695183700, 1986661051, 2177026350, 2456956037, 2730485921, 2820302411,
   3259730800, 3345764771, 3516065817, 3600352804, 4094571909, 275423344,
   430227734, 506948616, 659060556, 883997877, 958139571, 1322822218,
   1537002063, 1747873779, 1955562222, 2024104815, 2227730452, 2361852424,
   2428436474, 2756734187, 3204031479, 3329325298]

/-- An 8-word SHA-256 hash state. -/
structure Hash8 where
  h0 : Nat
  h1 : Nat
  h2 : Nat
  h3 : Nat
  h4 : Nat
  h5 : Nat
  h6 : Nat
  h7 : Nat
deriving Repr, DecidableEq

/-- The SHA-256 initial hash value (FIPS 180-4 §5.3.3). -/
def initH : Hash8 :=
  ⟨1779033703, 3144134277, 1013904242, 2773480762,
   1359893119, 2600822924, 528734635, 1541459225⟩

/-- Group a byte list into big-endian 32-bit words (4 bytes per word). -/
def toWords : List Nat → List Nat
  | b0 :: b1 :: b2 :: b3 :: rest =>
      (b0 * 16777216 + b1 * 65536 + b2 * 256 + b3) :: toWords rest
  | _ => []

/-- Extend a message-schedule word list by `n` further words, each computed
from the words 2, 7, 15 and 16 back (FIPS 180-4 §6.2.2 step 1). -/
def extendWords (ws : List Nat) : Nat → List Nat
  | 0 => ws
  | n + 1 =>
      let prev := extendWords ws n
      let l := prev.length
      prev ++ [(ssig1 (prev.getD (l - 2) 0) + prev.getD (l - 7) 0 +
                ssig0 (prev.getD (l - 15) 0) + prev.getD (l - 16) 0) % M32]

/-- One SHA-256 compression round: fold the working variables with a
round constant and schedule word (FIPS 180-4 §6.2.2 step 3). -/
def round256 (s : Hash8) (kw : Nat × Nat) : Hash8 :=
  let t1 := (s.h7 + bsig1 s.h4 + ch32 s.h4 s.h5 s.h6 + kw.1 + kw.2) % M32
  let t2 := (bsig0 s.h0 + maj32 s.h0 s.h1 s.h2) % M32
  ⟨(t1 + t2) % M32, s.h0, s.h1, s.h2, (s.h3 + t1) % M32, s.h4, s.h5, s.h6⟩

/-- The SHA-256 compression function on one 64-byte block. -/
def compress (H : Hash8) (block : List Nat) : Hash8 :=
  let ws := extendWords (toWords block) 48
  let s := List.foldl round256 H (K256.zip ws)
  ⟨(H.h0 + s.h0) % M32, (H.h1 + s.h1) % M32, (H.h2 + s.h2) % M32,
   (H.h3 + s.h3) % M32, (H.h4 + s.h4) % M32, (H.h5 + s.h5) % M32,
   (H.h6 + s.h6) % M32, (H.h7 + s.h7) % M32⟩

/-- SHA-256 padding: append `0x80`, zeros to 56 mod 64, then the bit length
as an 8-byte big-endian integer (FIPS 180-4 §5.1.1). -/
def padMsg (msg : List Nat) : List Nat :=
  let L := msg.length
  let zeroCount := (120 - (L + 1) % 64) % 64
  let bitLen := 8 * L
  msg ++ [128] ++ List.replicate zeroCount 0 ++
    [(bitLen >>> 56) &&& 255, (bitLen >>> 48) &&& 255,
     (bitLen >>> 40) &&& 255, (bitLen >>> 32) &&& 255,
     (bitLen >>> 24) &&& 255, (bitLen >>> 16) &&& 255,
     (bitLen >>> 8) &&& 255, bitLen &&& 255]

/-- Process `n` consecutive 64-byte blocks of `bytes` through `compress`. -/
def processBlocks : Nat → Hash8 → List Nat → Hash8
  | 0, H, _ => H
  | n + 1, H, bytes => processBlocks n (compress H (bytes.take 64)) (bytes.drop 64)

/-- Serialize a 32-bit word as 4 big-endian bytes. -/
def word2bytes (w : Nat) : List Nat :=
  [(w >>> 24) &&& 255, (w >>> 16) &&& 255, (w >>> 8) &&& 255, w &&& 255]

/-- Serialize a hash state as 32 bytes. -/
def serializeH (H : Hash8) : List Nat :=
  word2bytes H.h0 ++ word2bytes H.h1 ++ word2bytes H.h2 ++ word2bytes H.h3 ++
  word2bytes H.h4 ++ word2bytes H.h5 ++ word2bytes H.h6 ++ word2bytes H.h7

/-- SHA-256 of a byte sequence (the function behind Python's
`hashlib.sha256(...).digest()`). -/
def sha256 (msg : List Nat) : List Nat :=
  let p := padMsg msg
  serializeH (processBlocks (p.length / 64) initH p)

/-- The SHA-256 block size in bytes (`hashlib.sha256().block_size`). -/
def BLOCK : Nat := 64

/-- HMAC over SHA-256 as computed by Python's `hmac.new(key, msg,
hashlib.sha256).digest()` (RFC 2104): a key longer than the block size is
first hashed, the key is zero-padded to the block size, and the digest is
`H((K0 ⊕ opad) ‖ H((K0 ⊕ ipad) ‖ msg))`. -/
def hmac_new (key msg : List Nat) : List Nat :=
  let k0 := if BLOCK < key.length then sha256 key else key
  let kp := k0 ++ List.replicate (BLOCK - k0.length) 0
  sha256 ((kp.map (fun b => b ^^^ 0x5c)) ++
    sha256 ((kp.map (fun b => b ^^^ 0x36)) ++ msg))

/-- The error taxonomy of the spec (§7).  The Python code signals the
first case by raising `ValueError`; the other two come from the external
Argon2 primitive. -/
inductive KDFError where
  | invalidInput
  | invalidParameter
  | resourceExhausted
deriving Repr, DecidableEq

/-- The function `randomize_salt` of `src/argon2_secure_kdf.py`: reject an
empty seed, otherwise return
`hmac.new(hashlib.sha256(user_salt).digest(), user_salt, hashlib.sha256).digest()`. -/
def randomize_salt (user_salt : List Nat) : Except KDFError (List Nat) :=
  if user_salt = [] then .error .invalidInput
  else .ok (hmac_new (sha256 user_salt) user_salt)

/-- Encode one Unicode code point as UTF-8 bytes. -/
def utf8EncodeChar (c : Nat) : List Nat :=
  if c < 0x80 then [c]
  else if c < 0x800 then
    [0xC0 ||| (c >>> 6), 0x80 ||| (c &&& 0x3F)]
  else if c < 0x10000 then
    [0xE0 ||| (c >>> 12), 0x80 ||| ((c >>> 6) &&& 0x3F), 0x80 ||| (c &&& 0x3F)]
  else
    [0xF0 ||| (c >>> 18), 0x80 ||| ((c >>> 12) &&& 0x3F),
     0x80 ||| ((c >>> 6) &&& 0x3F), 0x80 ||| (c &&& 0x3F)]

/-- UTF-8 encoding of a string (Python's `password.encode('utf-8')`). -/
def utf8Encode (s : String) : List Nat :=
  s.data.flatMap (fun ch => utf8EncodeChar ch.toNat)

/-- The Argon2 variant selector (`argon2.low_level.Type`). -/
inductive Argon2Type where
  | D
  | I
  | ID
deriving Repr, DecidableEq

/-- The type of the external memory-hard mixing function: secret, salt,
time cost, memory cost, parallelism, hash length, variant, to output
bytes.  The actual Argon2 mixing is outside this repository. -/
def Argon2Prim : Type :=
  List Nat → List Nat → Int → Int → Int → Int → Argon2Type → List Nat

/-- Modelled from the spec: parameter validation performed inside the
external primitive `argon2.low_level.hash_secret_raw`, whose code is not
part of this repository.  Per §4.2 and §7, every cost parameter must be a
positive integer and the memory cost must meet the per-lane minimum of the
primitive (8 KiB per lane), otherwise the call fails with
`InvalidParameterError`. -/
def argon2ParamsValid (time_cost memory_cost parallelism hash_len : Int) : Bool :=
  0 < time_cost && 0 < memory_cost && 0 < parallelism && 0 < hash_len &&
    8 * parallelism ≤ memory_cost

/-- Modelled from the spec: the external collaborator
`argon2.low_level.hash_secret_raw` (§6), not part of this repository's
sources.  It validates the cost parameters, surfacing a rejection as
`InvalidParameterError` (§4.2), and otherwise applies the memory-hard
mixing function `impl`. -/
def hash_secret_raw (impl : Argon2Prim) (secret salt : List Nat)
    (time_cost memory_cost parallelism hash_len : Int)
    (ty : Argon2Type) : Except KDFError (List Nat) :=
  if argon2ParamsValid time_cost memory_cost parallelism hash_len then
    .ok (impl secret salt time_cost memory_cost parallelism hash_len ty)
  else .error .invalidParameter

/-- The function `derive_key` of `src/argon2_secure_kdf.py`: reject an
empty salt, then delegate to `hash_secret_raw` with the UTF-8-encoded password as the
secret, the salt, the four cost parameters, and the Argon2id variant.
The Python signature's default values (`time_cost=2`, `memory_cost=102400`,
`parallelism=8`, `hash_len=32`) are carried as optional arguments. -/
def derive_key (impl : Argon2Prim) (password : String) (salt : List Nat)
    (time_cost : Int := 2) (memory_cost : Int := 102400)
    (parallelism : Int := 8) (hash_len : Int := 32) :
    Except KDFError (List Nat) :=
  if salt = [] then .error .invalidInput
  else hash_secret_raw impl (utf8Encode password) salt
    time_cost memory_cost parallelism hash_len .ID

/-- The self-keyed expansion construction of spec §4.1, written from the
spec's words: derive an internal key `K = Hash(seed)` using SHA-256, then
output the full digest of the keyed PRF HMAC-SHA256 evaluated over the
original seed bytes and keyed with `K` — the 32-byte key is zero-padded to
the 64-byte HMAC block, and the digest is the outer hash of the
opad-masked key followed by the inner hash of the ipad-masked key and the
message. -/
def expand_spec (seed : List Nat) : List Nat :=
  let K := sha256 seed
  let paddedK := K ++ List.replicate (64 - K.length) 0
  sha256 ((paddedK.map (fun b => b ^^^ 0x5c)) ++
    sha256 ((paddedK.map (fun b => b ^^^ 0x36)) ++ seed))

/-- SHA-256 digests are always 32 bytes. -/
theorem sha256_length (msg : List Nat) : (sha256 msg).length = 32 := by
  simp [sha256, serializeH, word2bytes]

/-- HMAC-SHA256 digests are always 32 bytes. -/
theorem hmac_new_length (key msg : List Nat) :
    (hmac_new key msg).length = 32 :=
  sha256_length _

/-- C1: for every non-empty seed, `randomize_salt` computes exactly the
self-keyed construction of spec §4.1 — it derives `K = SHA-256(seed)` and
returns the full HMAC-SHA256 digest of the original seed bytes keyed with
`K`. -/
theorem randomize_salt_is_self_keyed_hmac (seed : List Nat) (h : seed ≠ []) :
    randomize_salt seed = .ok (expand_spec seed) := by
  have hlen : (sha256 seed).length = 32 := sha256_length seed
  simp [randomize_salt, h, hmac_new, expand_spec, BLOCK, hlen]

/-- Witness for C1 at the seed `b"User-ID-2"` of the spec's end-to-end
scenario (§8). -/
theorem randomize_salt_is_self_keyed_hmac_witness :
    ([85, 115, 101, 114, 45, 73, 68, 45, 50] : List Nat) ≠ [] ∧
    randomize_salt [85, 115, 101, 114, 45, 73, 68, 45, 50] =
      .ok (expand_spec [85, 115, 101, 114, 45, 73, 68, 45, 50]) :=
  ⟨by decide, randomize_salt_is_self_keyed_hmac _ (by decide)⟩

/-- C2: for every password, non-empty salt and parameters, `derive_key`
delegates to the external primitive with the Argon2id variant, the four
cost parameters unchanged, the UTF-8-encoded password as the secret and
the salt as given. -/
theorem derive_key_delegates_argon2id (impl : Argon2Prim) (pw : String)
    (salt : List Nat) (tc mc par hl : Int) (h : salt ≠ []) :
    derive_key impl pw salt tc mc par hl =
      hash_secret_raw impl (utf8Encode pw) salt tc mc par hl Argon2Type.ID := by
  simp [derive_key, h]

/-- Witness for C2 at concrete inputs. -/
theorem derive_key_delegates_argon2id_witness :
    derive_key (fun s sa _ _ _ _ _ => s ++ sa) "pw" [1, 2] 5 65536 4 32 =
      hash_secret_raw (fun s sa _ _ _ _ _ => s ++ sa) (utf8Encode "pw")
        [1, 2] 5 65536 4 32 Argon2Type.ID :=
  derive_key_delegates_argon2id _ _ _ _ _ _ _ (by decide)

/-- C3: both operations are deterministic — two calls of `randomize_salt`
on the same non-empty seed agree, and two calls of `derive_key` with
identical arguments agree. -/
theorem expand_and_derive_deterministic :
    (∀ seed : List Nat, seed ≠ [] → randomize_salt seed = randomize_salt seed) ∧
    (∀ (impl : Argon2Prim) (pw : String) (salt : List Nat) (tc mc par hl : Int),
      salt ≠ [] →
      derive_key impl pw salt tc mc par hl = derive_key impl pw salt tc mc par hl) :=
  ⟨fun _ _ => rfl, fun _ _ _ _ _ _ _ _ => rfl⟩

/-- Witness for C3 at concrete inputs. -/
theorem expand_and_derive_deterministic_witness :
    randomize_salt [7] = randomize_salt [7] ∧
    derive_key (fun _ _ _ _ _ _ _ => []) "p" [7] 1 8 1 32 =
      derive_key (fun _ _ _ _ _ _ _ => []) "p" [7] 1 8 1 32 :=
  ⟨expand_and_derive_deterministic.1 [7] (by decide),
   expand_and_derive_deterministic.2 _ "p" [7] 1 8 1 32 (by decide)⟩

/-- C4: for every non-empty seed of any length, `randomize_salt` succeeds
with a byte sequence of exactly 32 bytes. -/
theorem randomize_salt_length_32 (seed : List Nat) (h : seed ≠ []) :
    ∃ out, randomize_salt seed = .ok out ∧ out.length = 32 := by
  refine ⟨hmac_new (sha256 seed) seed, ?_, hmac_new_length _ _⟩
  simp [randomize_salt, h]

/-- Witness for C4 at a 1-byte seed. -/
theorem randomize_salt_length_32_witness :
    ∃ out, randomize_salt [65] = .ok out ∧ out.length = 32 :=
  randomize_salt_length_32 [65] (by decide)

/-- C5: calling `randomize_salt` on the empty byte sequence fails with the
input-validation error, and this is the only failure mode — every
non-empty seed succeeds. -/
theorem randomize_salt_empty_only_failure :
    randomize_salt [] = .error .invalidInput ∧
    ∀ seed : List Nat, seed ≠ [] → ∃ out, randomize_salt seed = .ok out :=
  ⟨rfl, fun seed h => ⟨hmac_new (sha256 seed) seed, by simp [randomize_salt, h]⟩⟩

/-- Witness for C5 at a concrete non-empty seed. -/
theorem randomize_salt_empty_only_failure_witness :
    randomize_salt [] = .error .invalidInput ∧
    ∃ out, randomize_salt [66] = .ok out :=
  ⟨randomize_salt_empty_only_failure.1,
   randomize_salt_empty_only_failure.2 [66] (by decide)⟩

/-- C6: for every primitive, password and parameters, `derive_key` on an
empty salt fails with the input-validation error — the check is made by
`derive_key` itself, before anything reaches the primitive. -/
theorem derive_key_rejects_empty_salt (impl : Argon2Prim) (pw : String)
    (tc mc par hl : Int) :
    derive_key impl pw [] tc mc par hl = .error .invalidInput := by
  simp [derive_key]

/-- C7: for every non-empty salt, a call with any non-positive cost
parameter fails with the parameter-validation error. -/
theorem derive_key_rejects_nonpositive_params (impl : Argon2Prim)
    (pw : String) (salt : List Nat) (tc mc par hl : Int) (hs : salt ≠ [])
    (hbad : tc ≤ 0 ∨ mc ≤ 0 ∨ par ≤ 0 ∨ hl ≤ 0) :
    derive_key impl pw salt tc mc par hl = .error .invalidParameter := by
  rcases Bool.eq_false_or_eq_true (argon2ParamsValid tc mc par hl) with hv | hv
  · exfalso
    simp only [argon2ParamsValid, Bool.and_eq_true, decide_eq_true_eq] at hv
    omega
  · simp [derive_key, hs, hash_secret_raw, hv]

/-- Witness for C7 at `time_cost = 0`. -/
theorem derive_key_rejects_nonpositive_params_witness :
    derive_key (fun _ _ _ _ _ _ _ => []) "p" [1] 0 102400 8 32 =
      .error .invalidParameter :=
  derive_key_rejects_nonpositive_params _ _ _ _ _ _ _ (by decide)
    (Or.inl (by decide))

/-- C8: if the external primitive honours its output-length contract
(§6: the result has `hash_len` bytes), then for every password, non-empty
salt and valid parameters, `derive_key` succeeds with a byte sequence of
length exactly `hash_len`. -/
theorem derive_key_output_length (impl : Argon2Prim)
    (hc : ∀ s sa tc mc par hl ty, (impl s sa tc mc par hl ty).length = hl.toNat)
    (pw : String) (salt : List Nat) (tc mc par hl : Int)
    (hs : salt ≠ []) (hp : argon2ParamsValid tc mc par hl = true) :
    ∃ out, derive_key impl pw salt tc mc par hl = .ok out ∧
      out.length = hl.toNat := by
  refine ⟨impl (utf8Encode pw) salt tc mc par hl Argon2Type.ID, ?_,
    hc _ _ _ _ _ _ _⟩
  simp [derive_key, hs, hash_secret_raw, hp]

/-- Witness for C8 with a contract-abiding primitive and `hash_len = 32`. -/
theorem derive_key_output_length_witness :
    ∃ out,
      derive_key (fun _ _ _ _ _ hl _ => List.replicate hl.toNat 0)
        "pw" [3] 5 65536 4 32 = .ok out ∧
      out.length = Int.toNat 32 :=
  derive_key_output_length _ (fun _ _ _ _ _ _ _ => by simp)
    "pw" [3] 5 65536 4 32 (by decide) (by decide)

/-- C9: omitted cost parameters default to `time_cost = 2`,
`memory_cost = 102400`, `parallelism = 8`, `hash_len = 32`, and those
defaults pass the primitive's parameter validation. -/
theorem derive_key_defaults :
    (∀ (impl : Argon2Prim) (pw : String) (salt : List Nat),
      derive_key impl pw salt = derive_key impl pw salt 2 102400 8 32) ∧
    argon2ParamsValid 2 102400 8 32 = true :=
  ⟨fun _ _ _ => rfl, by decide⟩

/-- C10: the empty password is accepted — for every non-empty salt and
valid parameters, `derive_key` raises no input-validation error and hands
the primitive the empty byte string as the secret. -/
theorem derive_key_accepts_empty_password (impl : Argon2Prim)
    (salt : List Nat) (tc mc par hl : Int) (hs : salt ≠ [])
    (hp : argon2ParamsValid tc mc par hl = true) :
    derive_key impl "" salt tc mc par hl =
      .ok (impl [] salt tc mc par hl Argon2Type.ID) := by
  have h0 : utf8Encode "" = [] := rfl
  simp [derive_key, hs, hash_secret_raw, hp, h0]

/-- Witness for C10 at concrete inputs. -/
theorem derive_key_accepts_empty_password_witness :
    derive_key (fun s sa _ _ _ _ _ => sa ++ s) "" [9] 2 1024 2 16 =
      .ok [9] :=
  derive_key_accepts_empty_password _ [9] 2 1024 2 16 (by decide) (by decide)

end KDF
